import Mathlib

/-!
Shallow embedding of the img-to-pdf converter (TypeScript sources) for
verification of its layout and page-composition engine.

Numeric values (page dimensions in points, image dimensions in pixels,
margins, scales) are embedded as rationals: the source performs plain
IEEE-double arithmetic with no rounding, and every property of interest
is an exact algebraic identity or inequality of that arithmetic.
-/

namespace ImgToPdf

/-- Physical page dimensions in points (source: `interface PageFormat`). -/
structure PageFormat where
  width : ℚ
  height : ℚ
deriving Repr, DecidableEq

/-- Asymmetric margins used by the "custom" fill mode
(source: `interface CustomMargin`). -/
structure CustomMargin where
  top : ℚ
  bottom : ℚ
  left : ℚ
  right : ℚ
deriving Repr, DecidableEq

/-- The placement rectangle computed by the layout calculator
(source: `interface LayoutInfo`). -/
structure LayoutInfo where
  width : ℚ
  height : ℚ
  x : ℚ
  y : ℚ
  pageWidth : ℚ
  pageHeight : ℚ
  fillMode : String
deriving Repr, DecidableEq

/-- The configuration fields read by the functions modelled here
(source: `interface Config`).  `fillMode` is a `String`: the TypeScript
union type is erased at runtime, so any string can reach the switch. -/
structure Config where
  pageSize : String
  minimumMargin : ℚ
  fillMode : String
  customMargin : CustomMargin
  supportedFormats : List String
  backgroundColor : String
deriving Repr, DecidableEq

/-- The static page-format table built in the converter's constructor
(source: `this.pageFormats` with entries A4, A3, Letter, Legal). -/
def pageFormats (name : String) : Option PageFormat :=
  if name = "A4" then some ⟨59528 / 100, 84189 / 100⟩
  else if name = "A3" then some ⟨84189 / 100, 119055 / 100⟩
  else if name = "Letter" then some ⟨612, 792⟩
  else if name = "Legal" then some ⟨612, 1008⟩
  else none

/-- Source: `calculateOptimalLayout(imgWidth, imgHeight, pageFormat)`.
An unknown page format throws (`Except.error`); otherwise the switch on
`config.fillMode` picks the branch.  `this.config.minimumMargin || 0` is
the identity on every rational, so `margin` is `c.minimumMargin`;
`this.config.customMargin || {...}` never takes its default because the
`Config` type requires the field. -/
def calculateOptimalLayout (c : Config) (imgWidth imgHeight : ℚ)
    (pageFormat : String) : Except String LayoutInfo :=
  match pageFormats pageFormat with
  | none => Except.error ("不支援的頁面格式: " ++ pageFormat)
  | some page =>
    let margin := c.minimumMargin
    if c.fillMode = "custom" then
      let cm := c.customMargin
      let pageWidth := page.width - cm.left - cm.right
      let pageHeight := page.height - cm.top - cm.bottom
      Except.ok { width := pageWidth, height := pageHeight,
                  x := cm.left, y := cm.top,
                  pageWidth := page.width, pageHeight := page.height,
                  fillMode := c.fillMode }
    else if c.fillMode = "stretch" then
      let pageWidth := page.width - margin * 2
      let pageHeight := page.height - margin * 2
      Except.ok { width := pageWidth, height := pageHeight,
                  x := margin, y := margin,
                  pageWidth := page.width, pageHeight := page.height,
                  fillMode := c.fillMode }
    else if c.fillMode = "crop" then
      let pageWidth := page.width - margin * 2
      let pageHeight := page.height - margin * 2
      let scaleWidth := pageWidth / imgWidth
      let scaleHeight := pageHeight / imgHeight
      let scale := max scaleWidth scaleHeight
      let finalWidth := imgWidth * scale
      let finalHeight := imgHeight * scale
      Except.ok { width := finalWidth, height := finalHeight,
                  x := margin + (pageWidth - finalWidth) / 2,
                  y := margin + (pageHeight - finalHeight) / 2,
                  pageWidth := page.width, pageHeight := page.height,
                  fillMode := c.fillMode }
    else
      let pageWidth := page.width - margin * 2
      let pageHeight := page.height - margin * 2
      let scaleW := pageWidth / imgWidth
      let scaleH := pageHeight / imgHeight
      let scaleMin := min scaleW scaleH
      let finalWidth := imgWidth * scaleMin
      let finalHeight := imgHeight * scaleMin
      Except.ok { width := finalWidth, height := finalHeight,
                  x := margin + (pageWidth - finalWidth) / 2,
                  y := margin + (pageHeight - finalHeight) / 2,
                  pageWidth := page.width, pageHeight := page.height,
                  fillMode := c.fillMode }

/-! ### File listing and ordering (source: `getImageFiles`) -/

/-- First maximal digit run of a character list, i.e. the first match of
the regex `\d+` (source: `a.name.match(/\d+/)?.[0]`); `[]` when there is
no digit, standing for the `|| "0"` fallback. -/
def digitRun : List Char → List Char
  | [] => []
  | ch :: rest =>
    if ch.isDigit then ch :: rest.takeWhile Char.isDigit else digitRun rest

/-- Decimal value of a digit list (the behaviour of `parseInt` on the
matched digit run). -/
def parseDigits (l : List Char) : Nat :=
  l.foldl (fun n ch => 10 * n + (ch.toNat - 48)) 0

/-- The numeric sort key of a file name: the first embedded integer, `0`
when the name has no digits (source: `parseInt(name.match(/\d+/)?.[0] || "0")`). -/
def firstNumKey (s : String) : Nat :=
  parseDigits (digitRun s.data)

/-- The sort comparator of `getImageFiles`, parameterised by the
locale-aware secondary comparison `lcmp` (the host runtime's
`localeCompare(…, "zh-TW", numeric)`, an external collaborator):
numeric keys first, `lcmp` on ties. -/
def imageCompare (lcmp : String → String → Int) (a b : String) : Int :=
  let numA : Int := firstNumKey a
  let numB : Int := firstNumKey b
  if numA ≠ numB then numA - numB else lcmp a b

/-- Insert `x` after every element that does not compare strictly greater,
the stable-insertion step of the model of `Array.prototype.sort`
(ECMAScript sort is stable). -/
def insertSorted (cmp : String → String → Int) (x : String) :
    List String → List String
  | [] => [x]
  | y :: ys => if cmp x y < 0 then x :: y :: ys else y :: insertSorted cmp x ys

/-- Stable sort by `cmp`, modelling `files.sort(comparator)`. -/
def sortImages (cmp : String → String → Int) (l : List String) : List String :=
  l.foldl (fun acc x => insertSorted cmp x acc) []

/-- Source: `path.extname(file)` for a plain file name — the suffix of the
name starting at its last dot, except that a dot in the leading position
does not begin an extension. -/
def extname (s : String) : String :=
  let cs := s.data
  let dots := (List.range cs.length).filter fun i =>
    decide (0 < i) && (cs.getD i ' ' == '.')
  match dots.getLast? with
  | none => ""
  | some i => String.mk (cs.drop i)

/-- Lower-casing of `String.prototype.toLowerCase` on extension strings. -/
def lowerStr (s : String) : String :=
  String.mk (s.data.map Char.toLower)

/-- Source: `getImageFiles` — keep the names whose lower-cased extension
is in `supportedFormats`, then sort by `imageCompare`.  Only the `name`
field of the produced records matters for ordering, so the model tracks
names; `fullPath`/`stats` are file-system metadata attached per name. -/
def getImageFiles (c : Config) (lcmp : String → String → Int)
    (files : List String) : List String :=
  sortImages (imageCompare lcmp)
    (files.filter fun f => c.supportedFormats.contains (lowerStr (extname f)))

/-! ### Page composition (source: `getImageDimensions`, `createPDF`) -/

/-- Pixel dimensions of an image (source: `interface ImageDimensions`). -/
structure ImageDimensions where
  width : ℚ
  height : ℚ
deriving Repr, DecidableEq

/-- Source: `getImageDimensions` — probe the image via the external
`image-size` capability (`probe`, `none` = the probe throws) and fall
back to 800×600 on failure. -/
def getImageDimensions (probe : String → Option ImageDimensions)
    (imagePath : String) : ImageDimensions :=
  (probe imagePath).getD ⟨800, 600⟩

/-- One page of the output document as issued to the external document
writer: which image the page was composed for, the colour of its
full-page background rectangle, and whether the final image-placement
instruction succeeded (`placed = false` = `doc.image` threw and the
per-image handler kept the background-only page). -/
structure Page where
  imageName : String
  background : String
  placed : Bool
deriving Repr, DecidableEq

/-- The body of the per-image `try` block of `createPDF`: probe the
dimensions (with fallback), compute the layout — a layout error is
caught by the per-image handler *before* `doc.addPage`, so no page is
produced — then add the page, fill the background, and attempt placement
(`placeOk` tells whether `doc.image` succeeds; on failure the handler
keeps the already-added page). -/
def composeImage (c : Config) (probe : String → Option ImageDimensions)
    (placeOk : String → Bool) (name : String) : Option Page :=
  let dims := getImageDimensions probe name
  match calculateOptimalLayout c dims.width dims.height c.pageSize with
  | Except.error _ => none
  | Except.ok _ =>
    some { imageName := name, background := c.backgroundColor,
           placed := placeOk name }

/-- Source: `createPDF` — compose every image of the group in order
(`compressImages` preserves the list's length, order and `name` fields,
so the model iterates the names directly) and resolve with the output
path once the stream finishes. -/
def createPDF (c : Config) (probe : String → Option ImageDimensions)
    (placeOk : String → Bool) (images : List String)
    (outputPath : String) : Except String (List Page × String) :=
  Except.ok (images.filterMap (composeImage c probe placeOk), outputPath)

/-! ### Scratch-directory cleanup (source: the `finish` handler of `createPDF`) -/

/-- State of the scratch (`temp_compressed`) directory: whether it exists
and which files it holds. -/
structure ScratchState where
  dirExists : Bool
  files : List String
deriving Repr, DecidableEq

/-- Source: `tempFiles.forEach(file => fs.unlinkSync(...))` — unlink the
files left to right; the first failing unlink throws out of the loop, so
it and every later file remain.  Returns the remaining files and whether
the loop ran to completion. -/
def unlinkAll (unlinkFails : String → Bool) :
    List String → List String × Bool
  | [] => ([], true)
  | f :: fs => if unlinkFails f then (f :: fs, false) else unlinkAll unlinkFails fs

/-- Source: the cleanup `try` block in the `finish` handler — if the
scratch directory exists, unlink its files then `rmdirSync` it; any
thrown error is caught (and logged), leaving the state partially
cleaned. -/
def cleanupTempDir (unlinkFails : String → Bool) (rmdirFails : Bool)
    (s : ScratchState) : ScratchState :=
  if s.dirExists then
    let r := unlinkAll unlinkFails s.files
    if r.2 then
      if rmdirFails then { dirExists := true, files := [] }
      else { dirExists := false, files := [] }
    else { dirExists := true, files := r.1 }
  else s

/-- Source: the whole `finish` handler of `createPDF` — run the cleanup
(whose failures are swallowed) and then resolve the promise with the
output path unconditionally. -/
def finishDocument (unlinkFails : String → Bool) (rmdirFails : Bool)
    (s : ScratchState) (outputPath : String) :
    ScratchState × Except String String :=
  (cleanupTempDir unlinkFails rmdirFails s, Except.ok outputPath)

/-! ### Theorems about the layout calculator -/

/-- Helper: a concrete configuration used by witnesses. -/
def fitConfig : Config :=
  { pageSize := "A4", minimumMargin := 0, fillMode := "fit",
    customMargin := ⟨15, 15, 0, 0⟩, supportedFormats := [".jpg"],
    backgroundColor := "#FFFFFF" }

/-- C1: in Fit mode, for positive image dimensions, a registered page
format and uniform margin ≥ 0, the returned rectangle preserves the
image's aspect ratio exactly (`width·imgH = height·imgW`), fits inside
the usable area (page minus twice the margin per axis), and is centered
there: offset = margin + (usable − final)/2 on each axis. -/
theorem computeLayout_fit (c : Config) (iw ih : ℚ) (pf : String)
    (page : PageFormat) (hm : c.fillMode = "fit") (hiw : 0 < iw)
    (hih : 0 < ih) (hpf : pageFormats pf = some page)
    (hmg : 0 ≤ c.minimumMargin) :
    ∃ r : LayoutInfo, calculateOptimalLayout c iw ih pf = Except.ok r ∧
      r.width * ih = r.height * iw ∧
      r.width ≤ page.width - c.minimumMargin * 2 ∧
      r.height ≤ page.height - c.minimumMargin * 2 ∧
      r.x = c.minimumMargin + ((page.width - c.minimumMargin * 2) - r.width) / 2 ∧
      r.y = c.minimumMargin + ((page.height - c.minimumMargin * 2) - r.height) / 2 := by
  set m := c.minimumMargin with hmdef
  set uw := page.width - m * 2 with huw
  set uh := page.height - m * 2 with huh
  set s := min (uw / iw) (uh / ih) with hs
  refine ⟨{ width := iw * s, height := ih * s,
            x := m + (uw - iw * s) / 2, y := m + (uh - ih * s) / 2,
            pageWidth := page.width, pageHeight := page.height,
            fillMode := c.fillMode }, ?_, by ring, ?_, ?_, rfl, rfl⟩
  · simp only [calculateOptimalLayout, hpf, hm]
    rw [if_neg (by decide), if_neg (by decide), if_neg (by decide)]
  · calc iw * s ≤ iw * (uw / iw) :=
          mul_le_mul_of_nonneg_left (min_le_left _ _) hiw.le
      _ = uw := by field_simp
  · calc ih * s ≤ ih * (uh / ih) :=
          mul_le_mul_of_nonneg_left (min_le_right _ _) hih.le
      _ = uh := by field_simp

/-- C1 witness: the fit layout of a 3264×2448 image on A4 with margin 0. -/
theorem computeLayout_fit_witness :
    ∃ r : LayoutInfo,
      calculateOptimalLayout fitConfig 3264 2448 "A4" = Except.ok r ∧
      r.width * 2448 = r.height * 3264 ∧
      r.width ≤ (59528 / 100 : ℚ) - fitConfig.minimumMargin * 2 ∧
      r.height ≤ (84189 / 100 : ℚ) - fitConfig.minimumMargin * 2 ∧
      r.x = fitConfig.minimumMargin +
        (((59528 / 100 : ℚ) - fitConfig.minimumMargin * 2) - r.width) / 2 ∧
      r.y = fitConfig.minimumMargin +
        (((84189 / 100 : ℚ) - fitConfig.minimumMargin * 2) - r.height) / 2 :=
  computeLayout_fit fitConfig 3264 2448 "A4" ⟨59528 / 100, 84189 / 100⟩
    rfl (by norm_num) (by norm_num) (by simp [pageFormats]) (by simp [fitConfig])

/-- Helper: a concrete crop-mode configuration used by witnesses. -/
def cropConfig : Config :=
  { pageSize := "A4", minimumMargin := 0, fillMode := "crop",
    customMargin := ⟨15, 15, 0, 0⟩, supportedFormats := [".jpg"],
    backgroundColor := "#FFFFFF" }

/-- C2: in Crop mode, for positive image dimensions, a registered page
format and uniform margin ≥ 0, the image is scaled by
`max(usableW/imgW, usableH/imgH)`, so the returned rectangle covers the
usable area (`width ≥ usableW`, `height ≥ usableH`), keeps the source
aspect ratio exactly, and is centered in the usable area (so `x` or `y`
may fall below the usable-area origin). -/
theorem computeLayout_crop (c : Config) (iw ih : ℚ) (pf : String)
    (page : PageFormat) (hm : c.fillMode = "crop") (hiw : 0 < iw)
    (hih : 0 < ih) (hpf : pageFormats pf = some page)
    (hmg : 0 ≤ c.minimumMargin) :
    ∃ r : LayoutInfo, calculateOptimalLayout c iw ih pf = Except.ok r ∧
      r.width = iw * max ((page.width - c.minimumMargin * 2) / iw)
                         ((page.height - c.minimumMargin * 2) / ih) ∧
      r.height = ih * max ((page.width - c.minimumMargin * 2) / iw)
                          ((page.height - c.minimumMargin * 2) / ih) ∧
      r.width * ih = r.height * iw ∧
      page.width - c.minimumMargin * 2 ≤ r.width ∧
      page.height - c.minimumMargin * 2 ≤ r.height ∧
      r.x = c.minimumMargin + ((page.width - c.minimumMargin * 2) - r.width) / 2 ∧
      r.y = c.minimumMargin + ((page.height - c.minimumMargin * 2) - r.height) / 2 := by
  set m := c.minimumMargin with hmdef
  set uw := page.width - m * 2 with huw
  set uh := page.height - m * 2 with huh
  set s := max (uw / iw) (uh / ih) with hs
  refine ⟨{ width := iw * s, height := ih * s,
            x := m + (uw - iw * s) / 2, y := m + (uh - ih * s) / 2,
            pageWidth := page.width, pageHeight := page.height,
            fillMode := c.fillMode }, ?_, rfl, rfl, by ring, ?_, ?_, rfl, rfl⟩
  · simp only [calculateOptimalLayout, hpf, hm]
    split_ifs with h1 h2
    · exact absurd h1 (by decide)
    · exact absurd h2 (by decide)
    · rfl
  · calc uw = iw * (uw / iw) := by field_simp
      _ ≤ iw * s := mul_le_mul_of_nonneg_left (le_max_left _ _) hiw.le
  · calc uh = ih * (uh / ih) := by field_simp
      _ ≤ ih * s := mul_le_mul_of_nonneg_left (le_max_right _ _) hih.le

/-- C2 witness: the crop layout of an 800×600 image on A4 with margin 0
(the spec's own example: scale = max(595.28/800, 841.89/600)). -/
theorem computeLayout_crop_witness :
    ∃ r : LayoutInfo,
      calculateOptimalLayout cropConfig 800 600 "A4" = Except.ok r ∧
      r.width = 800 * max (((59528 / 100 : ℚ) - cropConfig.minimumMargin * 2) / 800)
        (((84189 / 100 : ℚ) - cropConfig.minimumMargin * 2) / 600) ∧
      r.height = 600 * max (((59528 / 100 : ℚ) - cropConfig.minimumMargin * 2) / 800)
        (((84189 / 100 : ℚ) - cropConfig.minimumMargin * 2) / 600) ∧
      r.width * 600 = r.height * 800 ∧
      (59528 / 100 : ℚ) - cropConfig.minimumMargin * 2 ≤ r.width ∧
      (84189 / 100 : ℚ) - cropConfig.minimumMargin * 2 ≤ r.height ∧
      r.x = cropConfig.minimumMargin +
        (((59528 / 100 : ℚ) - cropConfig.minimumMargin * 2) - r.width) / 2 ∧
      r.y = cropConfig.minimumMargin +
        (((84189 / 100 : ℚ) - cropConfig.minimumMargin * 2) - r.height) / 2 :=
  computeLayout_crop cropConfig 800 600 "A4" ⟨59528 / 100, 84189 / 100⟩
    rfl (by norm_num) (by norm_num) (by simp [pageFormats]) (by simp [cropConfig])

/-- C3: for a registered page format and any image dimensions, Stretch
mode returns exactly the uniform-margin usable area placed at
(margin, margin), and Custom mode returns exactly the page dimensions
minus the asymmetric custom margins, placed at (left, top). -/
theorem computeLayout_stretch_custom (c : Config) (iw ih : ℚ) (pf : String)
    (page : PageFormat) (hpf : pageFormats pf = some page) :
    (c.fillMode = "stretch" →
      calculateOptimalLayout c iw ih pf = Except.ok
        { width := page.width - c.minimumMargin * 2,
          height := page.height - c.minimumMargin * 2,
          x := c.minimumMargin, y := c.minimumMargin,
          pageWidth := page.width, pageHeight := page.height,
          fillMode := c.fillMode }) ∧
    (c.fillMode = "custom" →
      calculateOptimalLayout c iw ih pf = Except.ok
        { width := page.width - c.customMargin.left - c.customMargin.right,
          height := page.height - c.customMargin.top - c.customMargin.bottom,
          x := c.customMargin.left, y := c.customMargin.top,
          pageWidth := page.width, pageHeight := page.height,
          fillMode := c.fillMode }) := by
  constructor
  · intro hm
    simp only [calculateOptimalLayout, hpf, hm]
    split_ifs with h1
    · exact absurd h1 (by decide)
    · rfl
  · intro hm
    simp only [calculateOptimalLayout, hpf, hm]
    split_ifs with h1
    · rfl
    · exact absurd trivial h1

/-- Helper: a concrete custom-mode configuration (the repository's
default: top/bottom 15, left/right 0) used by witnesses. -/
def customConfig : Config :=
  { pageSize := "A4", minimumMargin := 0, fillMode := "custom",
    customMargin := ⟨15, 15, 0, 0⟩, supportedFormats := [".jpg"],
    backgroundColor := "#FFFFFF" }

/-- C3 witness: the custom-mode layout on A4 with margins
top = bottom = 15, left = right = 0. -/
theorem computeLayout_stretch_custom_witness :
    (customConfig.fillMode = "stretch" →
      calculateOptimalLayout customConfig 800 600 "A4" = Except.ok
        { width := (59528 / 100 : ℚ) - customConfig.minimumMargin * 2,
          height := (84189 / 100 : ℚ) - customConfig.minimumMargin * 2,
          x := customConfig.minimumMargin, y := customConfig.minimumMargin,
          pageWidth := 59528 / 100, pageHeight := 84189 / 100,
          fillMode := customConfig.fillMode }) ∧
    (customConfig.fillMode = "custom" →
      calculateOptimalLayout customConfig 800 600 "A4" = Except.ok
        { width := (59528 / 100 : ℚ) - customConfig.customMargin.left -
            customConfig.customMargin.right,
          height := (84189 / 100 : ℚ) - customConfig.customMargin.top -
            customConfig.customMargin.bottom,
          x := customConfig.customMargin.left, y := customConfig.customMargin.top,
          pageWidth := 59528 / 100, pageHeight := 84189 / 100,
          fillMode := customConfig.fillMode }) :=
  computeLayout_stretch_custom customConfig 800 600 "A4"
    ⟨59528 / 100, 84189 / 100⟩ (by simp [pageFormats])

/-- C6: for every page-format name that is not one of A4, A3, Letter,
Legal (the keys of the page-format table), the layout calculator fails
with the unknown-page-format error for all image dimensions, margins and
fill modes, and never returns a `LayoutInfo`. -/
theorem computeLayout_unknown_format (c : Config) (iw ih : ℚ) (pf : String)
    (h : pf ≠ "A4" ∧ pf ≠ "A3" ∧ pf ≠ "Letter" ∧ pf ≠ "Legal") :
    calculateOptimalLayout c iw ih pf =
      Except.error ("不支援的頁面格式: " ++ pf) := by
  obtain ⟨h1, h2, h3, h4⟩ := h
  simp only [calculateOptimalLayout, pageFormats, if_neg h1, if_neg h2,
    if_neg h3, if_neg h4]

/-- C6 witness: the "B5" format name is rejected for a concrete
configuration and image. -/
theorem computeLayout_unknown_format_witness :
    calculateOptimalLayout fitConfig 800 600 "B5" =
      Except.error ("不支援的頁面格式: " ++ "B5") :=
  computeLayout_unknown_format fitConfig 800 600 "B5"
    ⟨by decide, by decide, by decide, by decide⟩

/-- C8: whenever the layout calculator returns a result, its `pageWidth`
and `pageHeight` fields are the full dimensions of the selected page
format, for every fill mode, margin configuration and image size. -/
theorem computeLayout_pageDims (c : Config) (iw ih : ℚ) (pf : String)
    (page : PageFormat) (hpf : pageFormats pf = some page) (r : LayoutInfo)
    (hr : calculateOptimalLayout c iw ih pf = Except.ok r) :
    r.pageWidth = page.width ∧ r.pageHeight = page.height := by
  simp only [calculateOptimalLayout, hpf] at hr
  split_ifs at hr <;>
    simp only [Except.ok.injEq] at hr <;> subst hr <;> exact ⟨rfl, rfl⟩

/-- C8 witness: the crop layout of an 800×600 image on A4 carries the
full A4 dimensions. -/
theorem computeLayout_pageDims_witness :
    ∃ r : LayoutInfo, calculateOptimalLayout cropConfig 800 600 "A4" = Except.ok r ∧
      r.pageWidth = (59528 / 100 : ℚ) ∧ r.pageHeight = (84189 / 100 : ℚ) := by
  refine ⟨{ width := 800 * ((84189 / 100 : ℚ) / 600),
            height := 600 * ((84189 / 100 : ℚ) / 600),
            x := 0 + ((59528 / 100 : ℚ) - 800 * ((84189 / 100 : ℚ) / 600)) / 2,
            y := 0 + ((84189 / 100 : ℚ) - 600 * ((84189 / 100 : ℚ) / 600)) / 2,
            pageWidth := 59528 / 100, pageHeight := 84189 / 100,
            fillMode := "crop" }, ?_, ?_⟩
  · show calculateOptimalLayout cropConfig 800 600 "A4" = _
    norm_num [calculateOptimalLayout, cropConfig, pageFormats]
    rw [if_neg (by decide), if_neg (by decide)]
  · exact computeLayout_pageDims cropConfig 800 600 "A4"
      ⟨59528 / 100, 84189 / 100⟩ (by simp [pageFormats]) _ (by
        norm_num [calculateOptimalLayout, cropConfig, pageFormats]
        rw [if_neg (by decide), if_neg (by decide)])

/-- C10: every fill-mode string other than "custom", "stretch" and
"crop" — "fit" itself and any unrecognized value — takes the switch's
default branch, which computes exactly the Fit-mode layout; the result
differs from the Fit configuration's result only in the echoed
`fillMode` field. -/
theorem computeLayout_default_is_fit (c : Config) (iw ih : ℚ) (pf : String)
    (h : c.fillMode ≠ "custom" ∧ c.fillMode ≠ "stretch" ∧ c.fillMode ≠ "crop") :
    calculateOptimalLayout c iw ih pf =
      Except.map (fun r => { r with fillMode := c.fillMode })
        (calculateOptimalLayout { c with fillMode := "fit" } iw ih pf) := by
  obtain ⟨h1, h2, h3⟩ := h
  simp only [calculateOptimalLayout]
  cases hp : pageFormats pf with
  | none => rfl
  | some page =>
    simp only [if_neg h1, if_neg h2, if_neg h3]
    split_ifs with hc hs hcr
    · exact absurd hc (by decide)
    · exact absurd hs (by decide)
    · exact absurd hcr (by decide)
    · rfl

/-- C10 witness: the unrecognized fill mode "cover" produces the
Fit-mode geometry. -/
theorem computeLayout_default_is_fit_witness :
    calculateOptimalLayout { fitConfig with fillMode := "cover" } 800 600 "A4" =
      Except.map (fun r => { r with fillMode := "cover" })
        (calculateOptimalLayout
          { { fitConfig with fillMode := "cover" } with fillMode := "fit" } 800 600 "A4") :=
  computeLayout_default_is_fit { fitConfig with fillMode := "cover" } 800 600 "A4"
    ⟨by decide, by decide, by decide⟩

/-! ### Theorems about the file ordering -/

/-- Inserting an element is a permutation of prepending it. -/
theorem insertSorted_perm (cmp : String → String → Int) (x : String) :
    ∀ l : List String, (insertSorted cmp x l).Perm (x :: l)
  | [] => List.Perm.refl _
  | y :: ys => by
    simp only [insertSorted]
    split_ifs with h
    · exact List.Perm.refl _
    · exact ((insertSorted_perm cmp x ys).cons y).trans (List.Perm.swap x y ys)

/-- The stable sort permutes its input. -/
theorem sortImages_perm (cmp : String → String → Int) (l : List String) :
    (sortImages cmp l).Perm l := by
  have key : ∀ (l acc : List String),
      (l.foldl (fun a x => insertSorted cmp x a) acc).Perm (acc ++ l) := by
    intro l
    induction l with
    | nil => intro acc; simp
    | cons x xs ih =>
      intro acc
      have h1 := ih (insertSorted cmp x acc)
      have h2 : (insertSorted cmp x acc ++ xs).Perm ((x :: acc) ++ xs) :=
        (insertSorted_perm cmp x acc).append_right xs
      have h3 : ((x :: acc) ++ xs).Perm (acc ++ x :: xs) := List.perm_middle.symm
      exact (h1.trans h2).trans h3
  simpa [sortImages] using key l []

/-- Inserting into a list whose adjacent pairs respect the comparator
keeps that property, provided the comparator's signs are coherent. -/
theorem insertSorted_chain (cmp : String → String → Int)
    (hc : ∀ a b : String, ¬ cmp a b < 0 → cmp b a ≤ 0) (x : String) :
    ∀ l : List String, List.Chain' (fun a b => cmp a b ≤ 0) l →
      List.Chain' (fun a b => cmp a b ≤ 0) (insertSorted cmp x l)
  | [], _ => List.chain'_singleton x
  | [y], _ => by
    simp only [insertSorted]
    split_ifs with h
    · exact List.chain'_pair.mpr (le_of_lt h)
    · exact List.chain'_pair.mpr (hc x y h)
  | y :: z :: zs, h => by
    rw [List.chain'_cons] at h
    simp only [insertSorted]
    split_ifs with hxy hxz
    · exact List.Chain'.cons (le_of_lt hxy) (List.chain'_cons.mpr h)
    · have ih := insertSorted_chain cmp hc x (z :: zs) h.2
      have he : insertSorted cmp x (z :: zs) = x :: z :: zs := by
        simp only [insertSorted, if_pos hxz]
      rw [he] at ih
      exact List.Chain'.cons (hc x y hxy) ih
    · have ih := insertSorted_chain cmp hc x (z :: zs) h.2
      have he : insertSorted cmp x (z :: zs) = z :: insertSorted cmp x zs := by
        simp only [insertSorted, if_neg hxz]
      rw [he] at ih
      exact List.Chain'.cons h.1 ih

/-- Adjacent-sortedness of the full stable sort. -/
theorem sortImages_chain (cmp : String → String → Int)
    (hc : ∀ a b : String, ¬ cmp a b < 0 → cmp b a ≤ 0) (l : List String) :
    List.Chain' (fun a b => cmp a b ≤ 0) (sortImages cmp l) := by
  have key : ∀ (l acc : List String),
      List.Chain' (fun a b => cmp a b ≤ 0) acc →
      List.Chain' (fun a b => cmp a b ≤ 0)
        (l.foldl (fun a x => insertSorted cmp x a) acc) := by
    intro l
    induction l with
    | nil => intro acc h; simpa using h
    | cons x xs ih =>
      intro acc h
      exact ih _ (insertSorted_chain cmp hc x acc h)
  exact key l [] List.chain'_nil

/-- The comparator orders nonpositively exactly when the numeric keys
are strictly ordered or tie and the locale comparison is nonpositive. -/
theorem imageCompare_nonpos (lcmp : String → String → Int) (a b : String) :
    imageCompare lcmp a b ≤ 0 ↔
      (firstNumKey a < firstNumKey b ∨
        (firstNumKey a = firstNumKey b ∧ lcmp a b ≤ 0)) := by
  simp only [imageCompare]
  split_ifs with h
  · constructor
    · intro hle
      left
      have : (firstNumKey a : Int) < (firstNumKey b : Int) := by
        omega
      exact_mod_cast this
    · intro hor
      rcases hor with hlt | ⟨heq, _⟩
      · have : (firstNumKey a : Int) < (firstNumKey b : Int) := by exact_mod_cast hlt
        omega
      · exact absurd (by exact_mod_cast heq) h
  · constructor
    · intro hle
      right
      exact ⟨by omega, hle⟩
    · intro hor
      rcases hor with hlt | ⟨_, hle⟩
      · have : (firstNumKey a : Int) < (firstNumKey b : Int) := by exact_mod_cast hlt
        omega
      · exact hle

/-- C7: `getImageFiles` orders each group primarily by the first
embedded integer of the file name, ascending, and on numeric ties by
the locale comparison `lcmp` (assumed sign-coherent, as
`localeCompare` is); the output is a permutation of the kept
(supported-extension) names; and the spec's example
`["2.jpg","10.jpg","1.jpg"]` sorts to `["1.jpg","2.jpg","10.jpg"]`. -/
theorem getImageFiles_order (c : Config) (lcmp : String → String → Int)
    (hl : ∀ a b : String, 0 ≤ lcmp a b → lcmp b a ≤ 0) (files : List String) :
    List.Chain' (fun a b => firstNumKey a < firstNumKey b ∨
        (firstNumKey a = firstNumKey b ∧ lcmp a b ≤ 0))
      (getImageFiles c lcmp files) ∧
    (getImageFiles c lcmp files).Perm
      (files.filter fun f => c.supportedFormats.contains (lowerStr (extname f))) ∧
    getImageFiles fitConfig (fun _ _ => 0) ["2.jpg", "10.jpg", "1.jpg"] =
      ["1.jpg", "2.jpg", "10.jpg"] := by
  have hc : ∀ a b : String, ¬ imageCompare lcmp a b < 0 →
      imageCompare lcmp b a ≤ 0 := by
    intro a b h
    simp only [imageCompare] at h ⊢
    split_ifs at h ⊢ with h1 h2 h2
    · omega
    · exact absurd (Ne.symm h1) h2
    · exact absurd (Ne.symm h2) h1
    · exact hl a b (by omega)
  refine ⟨?_, sortImages_perm _ _, by decide⟩
  have := sortImages_chain (imageCompare lcmp) hc
    (files.filter fun f => c.supportedFormats.contains (lowerStr (extname f)))
  exact List.Chain'.imp (fun a b hab => (imageCompare_nonpos lcmp a b).mp hab) this

/-- C7 witness: with the trivial (constant-zero) locale comparison, the
ordering properties hold for the example list, whose extensions are all
".jpg". -/
theorem getImageFiles_order_witness :
    List.Chain' (fun a b => firstNumKey a < firstNumKey b ∨
        (firstNumKey a = firstNumKey b ∧ (0 : Int) ≤ 0))
      (getImageFiles fitConfig (fun _ _ => 0) ["2.jpg", "10.jpg", "1.jpg"]) ∧
    (getImageFiles fitConfig (fun _ _ => 0) ["2.jpg", "10.jpg", "1.jpg"]).Perm
      (["2.jpg", "10.jpg", "1.jpg"].filter fun f =>
        fitConfig.supportedFormats.contains (lowerStr (extname f))) ∧
    getImageFiles fitConfig (fun _ _ => 0) ["2.jpg", "10.jpg", "1.jpg"] =
      ["1.jpg", "2.jpg", "10.jpg"] :=
  getImageFiles_order fitConfig (fun _ _ => 0) (fun _ _ h => h)
    ["2.jpg", "10.jpg", "1.jpg"]

/-! ### Theorems about page composition -/

/-- For a registered page format the layout calculator always succeeds:
every branch of the switch returns a result. -/
theorem calcLayout_isOk (c : Config) (iw ih : ℚ) (pf : String)
    (page : PageFormat) (hpf : pageFormats pf = some page) :
    ∃ r : LayoutInfo, calculateOptimalLayout c iw ih pf = Except.ok r := by
  simp only [calculateOptimalLayout, hpf]
  split_ifs <;> exact ⟨_, rfl⟩

/-- For a registered page format, composing an image always produces its
page — whatever the probe returns and whether or not placement works. -/
theorem composeImage_registered (c : Config) (page : PageFormat)
    (hpf : pageFormats c.pageSize = some page)
    (probe : String → Option ImageDimensions) (placeOk : String → Bool)
    (name : String) :
    composeImage c probe placeOk name =
      some { imageName := name, background := c.backgroundColor,
             placed := placeOk name } := by
  simp only [composeImage]
  obtain ⟨r, hr⟩ := calcLayout_isOk c (getImageDimensions probe name).width
    (getImageDimensions probe name).height c.pageSize page hpf
  rw [hr]

/-- C4: with a registered page format, `createPDF` composes exactly one
page per image of the group, in the group's input order, with the
configured background on each page — including images whose dimension
probe fails (the 800×600 fallback is used) and images whose placement
fails (the page stays background-only). -/
theorem createPDF_page_count (c : Config) (page : PageFormat)
    (hpf : pageFormats c.pageSize = some page)
    (probe : String → Option ImageDimensions) (placeOk : String → Bool)
    (images : List String) (out : String) :
    ∃ pages : List Page,
      createPDF c probe placeOk images out = Except.ok (pages, out) ∧
      pages.map Page.imageName = images ∧
      pages.length = images.length ∧
      ∀ p ∈ pages, p.background = c.backgroundColor := by
  refine ⟨images.map (fun n =>
    { imageName := n, background := c.backgroundColor, placed := placeOk n }),
    ?_, ?_, ?_, ?_⟩
  · simp only [createPDF, Except.ok.injEq, Prod.mk.injEq]
    refine ⟨?_, trivial⟩
    induction images with
    | nil => rfl
    | cons i is ih =>
      simp [composeImage_registered c page hpf probe placeOk, ih]
  · induction images with
    | nil => rfl
    | cons i is ih => simp [ih]
  · simp
  · intro p hp
    simp only [List.mem_map] at hp
    obtain ⟨n, _, rfl⟩ := hp
    rfl

/-- C4 witness: two images on A4 with a failing probe and failing
placement still yield two background pages in order. -/
theorem createPDF_page_count_witness :
    ∃ pages : List Page,
      createPDF fitConfig (fun _ => none) (fun _ => false)
        ["a.jpg", "b.jpg"] "out.pdf" = Except.ok (pages, "out.pdf") ∧
      pages.map Page.imageName = ["a.jpg", "b.jpg"] ∧
      pages.length = (["a.jpg", "b.jpg"] : List String).length ∧
      ∀ p ∈ pages, p.background = fitConfig.backgroundColor :=
  createPDF_page_count fitConfig ⟨59528 / 100, 84189 / 100⟩
    (by simp [fitConfig, pageFormats]) (fun _ => none) (fun _ => false)
    ["a.jpg", "b.jpg"] "out.pdf"

/-- Helper: a configuration naming the unregistered page format "B5". -/
def b5Config : Config :=
  { pageSize := "B5", minimumMargin := 0, fillMode := "fit",
    customMargin := ⟨15, 15, 0, 0⟩, supportedFormats := [".jpg"],
    backgroundColor := "#FFFFFF" }

/-- C5 counterexample: with the unregistered page format "B5", the
layout calculator raises the unknown-page-format error while composing
the first image of the two-image group, yet the group's build does not
abort — `createPDF` still completes and resolves with the output path
(each image was skipped by the per-image handler, so the document has
zero pages), contradicting the claim that the failure is fatal for the
group rather than recovered per-image. -/
theorem createPDF_unknown_format_no_abort :
    calculateOptimalLayout b5Config 800 600 "B5" =
      Except.error ("不支援的頁面格式: " ++ "B5") ∧
    createPDF b5Config (fun _ => none) (fun _ => true)
      ["a.jpg", "b.jpg"] "out.pdf" = Except.ok ([], "out.pdf") := by
  constructor
  · simp [calculateOptimalLayout, pageFormats, b5Config]
  · simp [createPDF, composeImage, calculateOptimalLayout, pageFormats,
      b5Config, getImageDimensions]

/-- C5 amended: an `UnknownPageFormat` raised while composing an image
is caught by the per-image handler of `createPDF`: the image is skipped
without a page being added (the failure precedes the add-page
instruction), composition continues with the remaining images — each of
which fails the same way, since the group shares one page-format name —
and the build completes normally with a zero-page document instead of
aborting. -/
theorem createPDF_unknown_format_skips_each (c : Config)
    (h : pageFormats c.pageSize = none)
    (probe : String → Option ImageDimensions) (placeOk : String → Bool)
    (images : List String) (out : String) :
    createPDF c probe placeOk images out = Except.ok ([], out) := by
  simp only [createPDF, Except.ok.injEq, Prod.mk.injEq]
  refine ⟨?_, trivial⟩
  induction images with
  | nil => rfl
  | cons i is ih =>
    have hc : composeImage c probe placeOk i = none := by
      simp only [composeImage, calculateOptimalLayout, h]
    simp [hc, ih]

/-- C5 amended witness: the "B5" group of two images builds an empty,
successfully finalized document. -/
theorem createPDF_unknown_format_skips_each_witness :
    createPDF b5Config (fun _ => some ⟨800, 600⟩) (fun _ => true)
      ["a.jpg", "b.jpg"] "out.pdf" = Except.ok ([], "out.pdf") :=
  createPDF_unknown_format_skips_each b5Config (by simp [b5Config, pageFormats])
    (fun _ => some ⟨800, 600⟩) (fun _ => true) ["a.jpg", "b.jpg"] "out.pdf"

/-! ### Theorems about scratch-directory cleanup -/

/-- When no unlink fails, the loop removes every file. -/
theorem unlinkAll_ok (ufail : String → Bool) (h : ∀ f, ufail f = false) :
    ∀ files : List String, unlinkAll ufail files = ([], true)
  | [] => rfl
  | f :: fs => by simp only [unlinkAll, h f, Bool.false_eq_true, if_false]
                  exact unlinkAll_ok ufail h fs

/-- C9: after `createPDF`'s finish handler runs, (a) if no deletion
fails, the scratch directory has lost all its files and been removed —
whatever set of preprocessed copies it held, i.e. regardless of how
preprocessing went — and (b) for every combination of deletion
failures, the handler still resolves with the output path: cleanup
errors are swallowed, never propagated into the result. -/
theorem createPDF_scratch_cleanup (s : ScratchState) (out : String)
    (ufail : String → Bool) (rfail : Bool)
    (hs : s.dirExists = false → s.files = []) :
    ((∀ f, ufail f = false) → rfail = false →
      cleanupTempDir ufail rfail s = ⟨false, []⟩) ∧
    (finishDocument ufail rfail s out).2 = Except.ok out := by
  refine ⟨fun hu hr => ?_, rfl⟩
  cases hd : s.dirExists with
  | false =>
    have := hs hd
    simp only [cleanupTempDir, hd, Bool.false_eq_true, if_false]
    cases s
    simp_all
  | true =>
    simp only [cleanupTempDir, hd, if_true, unlinkAll_ok ufail hu, hr,
      Bool.false_eq_true, if_false]

/-- C9 witness: a scratch directory holding one compressed copy is
emptied and removed when deletion works, and the build result is the
output path even when every deletion fails. -/
theorem createPDF_scratch_cleanup_witness :
    ((∀ f : String, (fun _ => false) f = false) → false = false →
      cleanupTempDir (fun _ => false) false ⟨true, ["a_compressed.jpg"]⟩ =
        ⟨false, []⟩) ∧
    (finishDocument (fun _ => false) false ⟨true, ["a_compressed.jpg"]⟩
        "out.pdf").2 = Except.ok "out.pdf" :=
  createPDF_scratch_cleanup ⟨true, ["a_compressed.jpg"]⟩ "out.pdf"
    (fun _ => false) false (by intro h; exact absurd h (by decide))

end ImgToPdf
